import Mathlib

/-!
# open-music: `SongsService` over a relational store

A shallow embedding of `src/services/postgres/SongsService.js` and of
`src/utils/index.js`.

* JavaScript values, objects, exceptions and `Array.prototype.map` are embedded as
  far as the service uses them.
* The service talks to its store only through `this._pool.query(query)`; the
  embedding keeps that seam: every service method takes a `Pool`, and
  `pgPool` is the pool whose `query` runs the seven SQL statements of the
  service on an in-memory database `Db`. The store rejects a statement whose text
  parameter holds the character U+0000, and an `INSERT` of an id that is already stored.
* The collaboration service, the id generator (`nanoid`) and the clock
  (`new Date()`) are external: they are parameters.
-/

namespace OpenMusic

/-! ## JavaScript values -/

/-- An instant, in milliseconds since the epoch. `new Date().toISOString()` renders
the instant as ISO-8601 text; the embedding keeps the instant that the text denotes. -/
abbrev Timestamp := Nat

/-- The JavaScript values that travel through the service: query parameters and the
fields of result rows. -/
inductive JsVal where
  | undefined
  | null
  | str (s : String)
  | strs (xs : List String)
  | time (t : Timestamp)
  deriving DecidableEq, Repr

/-- Truthiness of a value (`ToBoolean`): `undefined`, `null` and the empty string are
falsy; arrays and non-empty strings (an ISO timestamp among them) are truthy. -/
def JsVal.truthy : JsVal → Bool
  | .undefined => false
  | .null => false
  | .str s => s ≠ ""
  | .strs _ => true
  | .time _ => true

/-- Strict equality `===` between a value and a string. -/
def JsVal.strictEqStr : JsVal → String → Bool
  | .str s, t => s = t
  | _, _ => false

/-- A plain object: its own properties in insertion order. -/
abbrev JsObj := List (String × JsVal)

/-- Property read `o.k`: `undefined` when the object has no such property. -/
def JsObj.get (o : JsObj) (k : String) : JsVal :=
  (List.lookup k o).getD JsVal.undefined

/-! ## Exceptions -/

/-- Modelled from the spec: the exception classes of `src/exceptions/` (not among the
sources) are three distinct kinds, each carrying its message. `TypeError` is the
built-in one; `DatabaseError` is the error with which the store client rejects a
statement; `external` is any other error raised by a collaborator (the collaboration
service). -/
inductive Err where
  | InvariantError (message : String)
  | NotFoundError (message : String)
  | AuthorizationError (message : String)
  | TypeError (message : String)
  | DatabaseError (message : String)
  | external (message : String)
  deriving DecidableEq, Repr

deriving instance DecidableEq for Except

/-- The test `error instanceof NotFoundError`. -/
def Err.instanceofNotFoundError : Err → Bool
  | .NotFoundError _ => true
  | _ => false

/-! ## `src/utils/index.js` -/

/-- Source: `({ id, title, performer }) => ({ id, title, performer })`. -/
def mapDBToSongs (row : JsObj) : JsObj :=
  [("id", row.get "id"), ("title", row.get "title"), ("performer", row.get "performer")]

/-- Source: `mapDBToSong`, which renames `inserted_at` and `updated_at`. -/
def mapDBToSong (row : JsObj) : JsObj :=
  [("id", row.get "id"), ("title", row.get "title"), ("year", row.get "year"),
   ("performer", row.get "performer"), ("genre", row.get "genre"),
   ("duration", row.get "duration"), ("insertedAt", row.get "inserted_at"),
   ("updatedAt", row.get "updated_at")]

/-- Source: `module.exports = { mapDBToSongs, mapDBToSong }`. -/
def utilsExports : List (String × (JsObj → JsObj)) :=
  [("mapDBToSongs", mapDBToSongs), ("mapDBToSong", mapDBToSong)]

/-- Source: the import of `mapDBToModel` from `../../utils` at the head of `SongsService.js`:
the property `mapDBToModel` of the exports object, `none` standing for `undefined`. -/
def mapDBToModel : Option (JsObj → JsObj) :=
  List.lookup "mapDBToModel" utilsExports

/-- `Array.prototype.map`: throws a `TypeError` when the callback is not callable
(step 3 of the algorithm, before any element is visited). -/
def arrayMap {α β : Type} (xs : List α) (callbackfn : Option (α → β)) : Except Err (List β) :=
  match callbackfn with
  | none => .error (.TypeError "undefined is not a function")
  | some f => .ok (xs.map f)

/-! ## The store seam -/

/-- The seven statements the service sends, each with its parameter values. -/
inductive Query where
  /-- The statement `INSERT INTO songs VALUES($1, $2, $3, $4, $5, $6, $7) RETURNING id`. -/
  | insertSong (id title body : String) (tags : List String)
      (createdAt updatedAt : Timestamp) (owner : String)
  /-- The statement `SELECT songs.* FROM songs LEFT JOIN collaborations ON
  collaborations.song_id = songs.id WHERE songs.owner = $1 OR collaborations.user_id = $1
  GROUP BY songs.id`. -/
  | selectSongsOf (owner : String)
  /-- The statement `SELECT songs.*, users.username FROM songs LEFT JOIN users ON
  users.id = songs.owner WHERE songs.id = $1`. -/
  | selectSongWithUsername (id : String)
  /-- The statement `UPDATE songs SET title = $1, body = $2, tags = $3, updated_at = $4
  WHERE id = $5 RETURNING id`. -/
  | updateSong (title body : String) (tags : List String) (updatedAt : Timestamp) (id : String)
  /-- The statement `DELETE FROM songs WHERE id = $1 RETURNING id`. -/
  | deleteSong (id : String)
  /-- The statement `SELECT * FROM songs WHERE id = $1`. -/
  | selectSong (id : String)
  /-- The statement `SELECT id, username, fullname FROM users WHERE username LIKE $1`. -/
  | selectUsersLike (pattern : String)

/-- What `pool.query` resolves to: the service reads only `rows`. -/
structure QueryResult where
  rows : List JsObj
  deriving DecidableEq, Repr

/-- A connection pool over a store with states `σ`: `query` either rejects or resolves,
and leaves the store in a new state. -/
structure Pool (σ : Type) where
  query : Query → σ → Except Err QueryResult × σ

/-- The external collaboration service, with its own state `τ`. -/
structure CollaborationService (τ : Type) where
  verifyCollaborator : String → String → τ → Except Err Unit × τ

/-! ## `SongsService` -/

section Service

variable {σ τ : Type}

/-- Source: `SongsService.addSong` (lines 14-33). `nanoid` is the identifier drawn by
`nanoid(16)`, `now` the reading of `new Date()`. -/
def addSong (pool : Pool σ) (nanoid : String) (now : Timestamp)
    (title body : String) (tags : List String) (owner : String) (s : σ) :
    Except Err JsVal × σ :=
  let id := nanoid
  let createdAt := now
  let updatedAt := createdAt
  match pool.query (.insertSong id title body tags createdAt updatedAt owner) s with
  | (.error e, s1) => (.error e, s1)
  | (.ok result, s1) =>
    match result.rows.head? with
    | none => (.error (.TypeError "Cannot read properties of undefined (reading id)"), s1)
    | some row =>
      if !(row.get "id").truthy then
        (.error (.InvariantError "Catatan gagal ditambahkan"), s1)
      else
        (.ok (row.get "id"), s1)

/-- Source: `SongsService.getSongs` (lines 35-45). -/
def getSongs (pool : Pool σ) (owner : String) (s : σ) : Except Err (List JsObj) × σ :=
  match pool.query (.selectSongsOf owner) s with
  | (.error e, s1) => (.error e, s1)
  | (.ok result, s1) => (arrayMap result.rows mapDBToModel, s1)

/-- Source: `SongsService.getSongById` (lines 47-62). The value returned is element 0
of the mapped array, `none` standing for `undefined`. -/
def getSongById (pool : Pool σ) (id : String) (s : σ) : Except Err (Option JsObj) × σ :=
  match pool.query (.selectSongWithUsername id) s with
  | (.error e, s1) => (.error e, s1)
  | (.ok result, s1) =>
    if result.rows.length = 0 then
      (.error (.NotFoundError "Catatan tidak ditemukan"), s1)
    else
      match arrayMap result.rows mapDBToModel with
      | .error e => (.error e, s1)
      | .ok mapped => (.ok mapped.head?, s1)

/-- Source: `SongsService.editSongById` (lines 64-76). -/
def editSongById (pool : Pool σ) (now : Timestamp) (id : String)
    (title body : String) (tags : List String) (s : σ) : Except Err Unit × σ :=
  let updatedAt := now
  match pool.query (.updateSong title body tags updatedAt id) s with
  | (.error e, s1) => (.error e, s1)
  | (.ok result, s1) =>
    if result.rows.length = 0 then
      (.error (.NotFoundError "Gagal memperbarui catatan. Id tidak ditemukan"), s1)
    else
      (.ok (), s1)

/-- Source: `SongsService.deleteSongById` (lines 78-89). -/
def deleteSongById (pool : Pool σ) (id : String) (s : σ) : Except Err Unit × σ :=
  match pool.query (.deleteSong id) s with
  | (.error e, s1) => (.error e, s1)
  | (.ok result, s1) =>
    if result.rows.length = 0 then
      (.error (.NotFoundError "Catatan gagal dihapus. Id tidak ditemukan"), s1)
    else
      (.ok (), s1)

/-- Source: `SongsService.verifySongOwner` (lines 91-104). -/
def verifySongOwner (pool : Pool σ) (id owner : String) (s : σ) : Except Err Unit × σ :=
  match pool.query (.selectSong id) s with
  | (.error e, s1) => (.error e, s1)
  | (.ok result, s1) =>
    match result.rows with
    | [] => (.error (.NotFoundError "Catatan tidak ditemukan"), s1)
    | song :: _ =>
      if !(song.get "owner").strictEqStr owner then
        (.error (.AuthorizationError "Anda tidak berhak mengakses resource ini"), s1)
      else
        (.ok (), s1)

/-- Source: `SongsService.verifySongAccess` (lines 106-119): the outer `try`/`catch`
around the ownership check, the inner one around the collaboration service. -/
def verifySongAccess (pool : Pool σ) (collaborationService : CollaborationService τ)
    (songId userId : String) (s : σ) (c : τ) : Except Err Unit × σ × τ :=
  match verifySongOwner pool songId userId s with
  | (.ok (), s1) => (.ok (), s1, c)
  | (.error error, s1) =>
    if error.instanceofNotFoundError then
      (.error error, s1, c)
    else
      match collaborationService.verifyCollaborator songId userId c with
      | (.ok (), c1) => (.ok (), s1, c1)
      | (.error _, c1) => (.error error, s1, c1)

/-- Source: `SongsService.getUsersByUsername` (lines 121-128); the parameter is the
template literal with the fragment between two percent signs. -/
def getUsersByUsername (pool : Pool σ) (username : String) (s : σ) :
    Except Err (List JsObj) × σ :=
  match pool.query (.selectUsersLike ("%" ++ username ++ "%")) s with
  | (.error e, s1) => (.error e, s1)
  | (.ok result, s1) => (.ok result.rows, s1)

end Service

/-! ## The relational store -/

/-- Whether the store accepts a string as a text value: it holds no character U+0000. -/
def validText (s : String) : Bool := s.data.all (fun c => c ≠ Char.ofNat 0)

/-- A text value of the store: a string with no character U+0000. -/
abbrev Text := { s : String // validText s = true }

/-- The text value of a parameter, `none` when the store rejects the string. -/
def Text.ofString? (s : String) : Option Text :=
  if h : validText s = true then some ⟨s, h⟩ else none

/-- The text values of an array parameter, `none` when the store rejects an element. -/
def Text.ofStrings? : List String → Option (List Text)
  | [] => some []
  | s :: ss =>
    match Text.ofString? s, Text.ofStrings? ss with
    | some t, some ts => some (t :: ts)
    | _, _ => none

/-- Modelled from the spec: the schema of table `songs` (the migrations are not among
the sources). The columns are in the order in which the positional `INSERT` of `addSong`
fills them. -/
structure SongRow where
  id : Text
  title : Text
  body : Text
  tags : List Text
  created_at : Timestamp
  updated_at : Timestamp
  owner : Text
  deriving DecidableEq

/-- Modelled from the spec: table `users`, with the three columns the service reads. -/
structure UserRow where
  id : Text
  username : Text
  fullname : Text
  deriving DecidableEq

/-- Modelled from the spec: table `collaborations`, a grant relating a song to a user. -/
structure CollaborationRow where
  id : Text
  song_id : Text
  user_id : Text
  deriving DecidableEq

/-- A state of the store. -/
structure Db where
  songs : List SongRow
  users : List UserRow
  collaborations : List CollaborationRow
  deriving DecidableEq

/-- The row object the client builds for `songs.*`. -/
def SongRow.toObj (r : SongRow) : JsObj :=
  [("id", .str r.id.val), ("title", .str r.title.val), ("body", .str r.body.val),
   ("tags", .strs (r.tags.map Subtype.val)),
   ("created_at", .time r.created_at), ("updated_at", .time r.updated_at),
   ("owner", .str r.owner.val)]

/-- The row object for the projection `id, username, fullname` of `users`. -/
def UserRow.toObj (u : UserRow) : JsObj :=
  [("id", .str u.id.val), ("username", .str u.username.val), ("fullname", .str u.fullname.val)]

/-- The row object of `RETURNING id`. -/
def returningId (r : SongRow) : JsObj := [("id", .str r.id.val)]

/-- The error of the store for a text parameter that holds U+0000. -/
def invalidByteSequence : Err :=
  .DatabaseError "invalid byte sequence for encoding UTF8: 0x00"

/-- The error of the store for an `INSERT` of an id that is already stored. -/
def duplicateKey : Err :=
  .DatabaseError "duplicate key value violates unique constraint"

/-! ### `LIKE` -/

/-- One element of a `LIKE` pattern. -/
inductive LikeTok where
  /-- The wildcard `%`: any sequence of characters. -/
  | anySeq
  /-- The wildcard `_`: any single character. -/
  | anyOne
  /-- A character that stands for itself (written plainly, or after the escape). -/
  | lit (c : Char)
  deriving DecidableEq, Repr

/-- Reads a `LIKE` pattern with the default escape character, the backslash. `none` when
the pattern ends in an escape with nothing after it, which the store rejects. -/
def likePattern : List Char → Option (List LikeTok)
  | [] => some []
  | [c] =>
    if c = Char.ofNat 92 then none
    else if c = Char.ofNat 37 then some [.anySeq]
    else if c = Char.ofNat 95 then some [.anyOne]
    else some [.lit c]
  | c :: d :: p =>
    if c = Char.ofNat 92 then (likePattern p).map (fun ts => .lit d :: ts)
    else if c = Char.ofNat 37 then (likePattern (d :: p)).map (fun ts => .anySeq :: ts)
    else if c = Char.ofNat 95 then (likePattern (d :: p)).map (fun ts => .anyOne :: ts)
    else (likePattern (d :: p)).map (fun ts => .lit c :: ts)

/-- Whether the whole text matches the pattern. -/
def likeMatch : List LikeTok → List Char → Bool
  | [], t => t.isEmpty
  | .anySeq :: ts, t => t.tails.any (likeMatch ts)
  | .anyOne :: ts, t =>
    match t with
    | [] => false
    | _ :: t1 => likeMatch ts t1
  | .lit c :: ts, t =>
    match t with
    | [] => false
    | d :: t1 => c = d && likeMatch ts t1

/-- A character with no special reading in a `LIKE` pattern: neither the backslash, nor
`%`, nor `_`. -/
def plainChar (c : Char) : Prop :=
  c ≠ Char.ofNat 92 ∧ c ≠ Char.ofNat 37 ∧ c ≠ Char.ofNat 95

instance (c : Char) : Decidable (plainChar c) := by
  unfold plainChar
  infer_instance

/-! ### The statements -/

/-- The rows of `songs LEFT JOIN collaborations ON collaborations.song_id = songs.id`:
a song with no grant appears once, with no collaboration columns. -/
def songsLeftJoinCollaborations (db : Db) : List (SongRow × Option CollaborationRow) :=
  (db.songs.map (fun s =>
    match db.collaborations.filter (fun c => c.song_id = s.id) with
    | [] => [(s, none)]
    | cs => cs.map (fun c => (s, some c)))).flatten

/-- The effect of `GROUP BY songs.id` under `SELECT songs.*`: one row for each id. -/
def groupBySongId (rows : List SongRow) : List SongRow :=
  rows.foldl (fun acc r => if acc.any (fun a => a.id = r.id) then acc else acc ++ [r]) []

/-- The rows of `songs LEFT JOIN users ON users.id = songs.owner`, with `songs.*` and
`users.username` selected (`null` when no user matches). -/
def songsLeftJoinUsers (db : Db) : List (SongRow × JsObj) :=
  (db.songs.map (fun s =>
    match db.users.filter (fun u => u.id = s.owner) with
    | [] => [(s, s.toObj ++ [("username", JsVal.null)])]
    | us => us.map (fun u => (s, s.toObj ++ [("username", JsVal.str u.username.val)])))).flatten

/-- The store executing a statement of the service on a database state. A statement with
a text parameter that holds U+0000 is rejected before it runs, and so is the `INSERT` of
an id that a row of `songs` already has; a rejected statement changes nothing. -/
def pgQuery : Query → Db → Except Err QueryResult × Db
  | .insertSong id title body tags createdAt updatedAt owner, db =>
    match Text.ofString? id, Text.ofString? title, Text.ofString? body,
      Text.ofStrings? tags, Text.ofString? owner with
    | some id, some title, some body, some tags, some owner =>
      if db.songs.any (fun r => r.id = id) then (.error duplicateKey, db)
      else
        let row : SongRow := ⟨id, title, body, tags, createdAt, updatedAt, owner⟩
        (.ok ⟨[returningId row]⟩, { db with songs := db.songs ++ [row] })
    | _, _, _, _, _ => (.error invalidByteSequence, db)
  | .selectSongsOf owner, db =>
    if validText owner then
      let matched := (songsLeftJoinCollaborations db).filter (fun sc =>
        sc.1.owner.val = owner || (match sc.2 with
          | none => false
          | some c => c.user_id.val = owner))
      (.ok ⟨(groupBySongId (matched.map Prod.fst)).map SongRow.toObj⟩, db)
    else (.error invalidByteSequence, db)
  | .selectSongWithUsername id, db =>
    if validText id then
      (.ok ⟨((songsLeftJoinUsers db).filter (fun su => su.1.id.val = id)).map Prod.snd⟩, db)
    else (.error invalidByteSequence, db)
  | .updateSong title body tags updatedAt id, db =>
    match Text.ofString? title, Text.ofString? body, Text.ofStrings? tags,
      Text.ofString? id with
    | some title, some body, some tags, some id =>
      (.ok ⟨(db.songs.filter (fun r => r.id = id)).map returningId⟩,
       { db with songs := db.songs.map (fun r =>
          if r.id = id then
            { r with title := title, body := body, tags := tags, updated_at := updatedAt }
          else r) })
    | _, _, _, _ => (.error invalidByteSequence, db)
  | .deleteSong id, db =>
    if validText id then
      (.ok ⟨(db.songs.filter (fun r => r.id.val = id)).map returningId⟩,
       { db with songs := db.songs.filter (fun r => r.id.val ≠ id) })
    else (.error invalidByteSequence, db)
  | .selectSong id, db =>
    if validText id then
      (.ok ⟨(db.songs.filter (fun r => r.id.val = id)).map SongRow.toObj⟩, db)
    else (.error invalidByteSequence, db)
  | .selectUsersLike pattern, db =>
    if validText pattern then
      match likePattern pattern.data with
      | none => (.error (.DatabaseError "LIKE pattern must not end with escape character"), db)
      | some toks =>
        (.ok ⟨(db.users.filter (fun u => likeMatch toks u.username.val.data)).map
          UserRow.toObj⟩, db)
    else (.error invalidByteSequence, db)

/-- The pool of the service, connected to the store. -/
def pgPool : Pool Db := ⟨pgQuery⟩

/-- The first row of `songs` with the given id: the song stored under that id. -/
def Db.song? (db : Db) (id : String) : Option SongRow :=
  db.songs.find? (fun r => r.id.val = id)

/-! ## Fixtures -/

/-- A store with no rows. -/
def emptyDb : Db := ⟨[], [], []⟩

/-- A string that is the character U+0000 alone. -/
def nulString : String := String.singleton (Char.ofNat 0)

/-- A collaboration service that accepts every pair. -/
def acceptAll : CollaborationService Unit := ⟨fun _ _ c => (.ok (), c)⟩

/-- A collaboration service that rejects every pair and counts its calls. -/
def rejectAll : CollaborationService Nat :=
  ⟨fun _ _ n => (.error (.external "collaboration lookup failed"), n + 1)⟩

/-- A collaboration service whose lookup itself fails with a `NotFoundError`, counting
its calls. -/
def collabNotFound : CollaborationService Nat :=
  ⟨fun _ _ n => (.error (.NotFoundError "Kolaborasi tidak ditemukan"), n + 1)⟩

/-- A song of user `user-1`. -/
def song1 : SongRow :=
  ⟨⟨"song-1", by decide⟩, ⟨"Title", by decide⟩, ⟨"Body", by decide⟩,
   [⟨"a", by decide⟩, ⟨"b", by decide⟩], 10, 20, ⟨"user-1", by decide⟩⟩

/-- A store holding `song1` only. -/
def db1 : Db :=
  ⟨[song1], [⟨⟨"user-1", by decide⟩, ⟨"alice", by decide⟩, ⟨"Alice", by decide⟩⟩], []⟩

/-- The user `banana_fan`. -/
def userBanana : UserRow :=
  ⟨⟨"user-2", by decide⟩, ⟨"banana_fan", by decide⟩, ⟨"B. Fan", by decide⟩⟩

/-- The user `Anaïs`. -/
def userAnais : UserRow :=
  ⟨⟨"user-1", by decide⟩, ⟨"Anaïs", by decide⟩, ⟨"Anaïs N.", by decide⟩⟩

/-- Three users for the username search. -/
def dbUsers : Db :=
  ⟨[], [userAnais, userBanana,
        ⟨⟨"user-3", by decide⟩, ⟨"carol", by decide⟩, ⟨"Carol", by decide⟩⟩], []⟩

/-- A pool whose every statement resolves with no row and changes nothing: an `INSERT`
that a trigger or rule of the store turned into a no-op. -/
def noRowPool : Pool Unit := ⟨fun _ s => (.ok ⟨[]⟩, s)⟩

/-! ## Lemmas on the store -/

theorem SongRow.toObj_owner (r : SongRow) : r.toObj.get "owner" = .str r.owner.val := rfl

theorem Text.ofString?_of_valid (s : String) (h : validText s = true) :
    Text.ofString? s = some ⟨s, h⟩ := by
  simp [Text.ofString?, h]

theorem Text.ofString?_eq_some {s : String} {t : Text} (h : Text.ofString? s = some t) :
    t.val = s ∧ validText s = true := by
  unfold Text.ofString? at h
  split at h
  · rename_i hv
    simp only [Option.some.injEq] at h
    subst h
    exact ⟨rfl, hv⟩
  · simp at h

theorem Text.ofString?_eq_none {s : String} (h : Text.ofString? s = none) :
    validText s = false := by
  unfold Text.ofString? at h
  split at h
  · simp at h
  · rename_i hv
    simpa using hv

theorem Text.ofStrings?_eq_some {ss : List String} {ts : List Text}
    (h : Text.ofStrings? ss = some ts) :
    ts.map Subtype.val = ss ∧ ss.all validText = true := by
  induction ss generalizing ts with
  | nil =>
    simp only [Text.ofStrings?, Option.some.injEq] at h
    subst h
    simp
  | cons a l ih =>
    unfold Text.ofStrings? at h
    cases ha : Text.ofString? a with
    | none => simp [ha] at h
    | some t =>
      cases hl : Text.ofStrings? l with
      | none => simp [ha, hl] at h
      | some us =>
        simp only [ha, hl, Option.some.injEq] at h
        subst h
        obtain ⟨h1, h2⟩ := Text.ofString?_eq_some ha
        obtain ⟨h3, h4⟩ := ih hl
        simp [h1, h2, h3, h4]

theorem Text.ofStrings?_eq_none {ss : List String} (h : Text.ofStrings? ss = none) :
    ss.all validText = false := by
  induction ss with
  | nil => simp [Text.ofStrings?] at h
  | cons a l ih =>
    unfold Text.ofStrings? at h
    cases ha : Text.ofString? a with
    | none => simp [Text.ofString?_eq_none ha]
    | some t =>
      cases hl : Text.ofStrings? l with
      | none =>
        have := ih hl
        simp only [List.all_cons, this, Bool.and_false]
      | some us => simp [ha, hl] at h

theorem filter_eq_nil_of_find?_none {α : Type} (p : α → Bool) (l : List α)
    (h : l.find? p = none) : l.filter p = [] := by
  induction l with
  | nil => rfl
  | cons a l ih =>
    by_cases ha : p a
    · simp [List.find?, ha] at h
    · simp only [List.find?, ha] at h
      simp [List.filter, ha, ih h]

theorem filter_eq_cons_of_find?_some {α : Type} (p : α → Bool) (l : List α) (a : α)
    (h : l.find? p = some a) : ∃ rest, l.filter p = a :: rest := by
  induction l with
  | nil => simp at h
  | cons b l ih =>
    by_cases hb : p b
    · simp only [List.find?, hb, Option.some.injEq] at h
      subst h
      exact ⟨l.filter p, by simp [List.filter, hb]⟩
    · simp only [List.find?, hb] at h
      obtain ⟨rest, hrest⟩ := ih h
      exact ⟨rest, by simp [List.filter, hb, hrest]⟩

theorem song?_eq_none_iff (db : Db) (id : String) :
    db.song? id = none ↔ ∀ r ∈ db.songs, r.id.val ≠ id := by
  simp [Db.song?, List.find?_eq_none]

/-- A stored id is a text value, so the store accepts it as a parameter. -/
theorem validText_of_song? (db : Db) (id : String) (row : SongRow)
    (h : db.song? id = some row) : validText id = true := by
  have hid : row.id.val = id := by
    have := List.find?_some h
    simpa using this
  rw [← hid]
  exact row.id.property

/-- The ownership check on the store, by the song stored under the id. -/
theorem verifySongOwner_pg (db : Db) (id owner : String) :
    verifySongOwner pgPool id owner db =
      if validText id = true then
        match db.song? id with
        | none => (.error (.NotFoundError "Catatan tidak ditemukan"), db)
        | some row =>
          if row.owner.val = owner then (.ok (), db)
          else (.error (.AuthorizationError "Anda tidak berhak mengakses resource ini"), db)
      else (.error invalidByteSequence, db) := by
  by_cases hv : validText id = true
  · cases h : db.song? id with
    | none =>
      have hf := filter_eq_nil_of_find?_none _ _ h
      simp [verifySongOwner, pgPool, pgQuery, hv, hf]
    | some row =>
      obtain ⟨rest, hf⟩ := filter_eq_cons_of_find?_some _ _ _ h
      by_cases ho : row.owner.val = owner
      · simp [verifySongOwner, pgPool, pgQuery, hv, hf, SongRow.toObj_owner,
          JsVal.strictEqStr, ho]
      · simp [verifySongOwner, pgPool, pgQuery, hv, hf, SongRow.toObj_owner,
          JsVal.strictEqStr, ho]
  · simp [verifySongOwner, pgPool, pgQuery, hv]

/-! ## Access resolution -/

/-- C4, as stated, fails: for an id that holds U+0000 the store rejects the query, and
`verifySongOwner` throws the error of the store, which is none of the three outcomes. -/
theorem verifySongOwner_fourth_outcome :
    ¬ (((∀ r ∈ emptyDb.songs, r.id.val ≠ nulString) ∧
        verifySongOwner pgPool nulString "user-1" emptyDb =
          (.error (.NotFoundError "Catatan tidak ditemukan"), emptyDb)) ∨
      (∃ row, emptyDb.song? nulString = some row ∧ row.owner.val ≠ "user-1" ∧
        verifySongOwner pgPool nulString "user-1" emptyDb =
          (.error (.AuthorizationError "Anda tidak berhak mengakses resource ini"), emptyDb)) ∨
      (∃ row, emptyDb.song? nulString = some row ∧ row.owner.val = "user-1" ∧
        verifySongOwner pgPool nulString "user-1" emptyDb = (.ok (), emptyDb))) := by
  have hval : verifySongOwner pgPool nulString "user-1" emptyDb =
      (.error invalidByteSequence, emptyDb) := by decide
  rintro (⟨_, h⟩ | ⟨row, h, _⟩ | ⟨row, h, _⟩)
  · rw [hval] at h
    revert h
    decide
  · simp [Db.song?, emptyDb] at h
  · simp [Db.song?, emptyDb] at h

/-- C4, amended: on every store state, `verifySongOwner(id, owner)` has exactly one of four
outcomes, and leaves the store as it was: the error of the store when the store rejects
the id as a parameter (it holds U+0000); `NotFoundError` when the store accepts the id and
no row of `songs` has it; `AuthorizationError` when a row has it and the stored owner
differs from the argument; normal completion when a row has it and the stored owner equals
the argument. -/
theorem verifySongOwner_outcomes (db : Db) (id owner : String) :
    (validText id = false ∧
      verifySongOwner pgPool id owner db = (.error invalidByteSequence, db)) ∨
    (validText id = true ∧ (∀ r ∈ db.songs, r.id.val ≠ id) ∧
      verifySongOwner pgPool id owner db =
        (.error (.NotFoundError "Catatan tidak ditemukan"), db)) ∨
    (∃ row, db.song? id = some row ∧ row.owner.val ≠ owner ∧
      verifySongOwner pgPool id owner db =
        (.error (.AuthorizationError "Anda tidak berhak mengakses resource ini"), db)) ∨
    (∃ row, db.song? id = some row ∧ row.owner.val = owner ∧
      verifySongOwner pgPool id owner db = (.ok (), db)) := by
  rw [verifySongOwner_pg]
  by_cases hv : validText id = true
  · cases h : db.song? id with
    | none => exact Or.inr (Or.inl ⟨hv, (song?_eq_none_iff db id).mp h, by simp [hv]⟩)
    | some row =>
      by_cases ho : row.owner.val = owner
      · exact Or.inr (Or.inr (Or.inr ⟨row, rfl, ho, by simp [hv, ho]⟩))
      · exact Or.inr (Or.inr (Or.inl ⟨row, rfl, ho, by simp [hv, ho]⟩))
  · exact Or.inl ⟨by simpa using hv, by simp [hv]⟩

/-- C1, as stated, fails: on a store with no song under the id and a collaboration
service that accepts the pair, the right-hand side holds and `verifySongAccess` throws. -/
theorem verifySongAccess_iff_fails_without_song :
    ¬ ((verifySongAccess pgPool acceptAll "song-x" "user-1" emptyDb ()).1 = .ok () ↔
        ((∃ row, emptyDb.song? "song-x" = some row ∧ row.owner.val = "user-1") ∨
          (acceptAll.verifyCollaborator "song-x" "user-1" ()).1 = .ok ())) := by
  intro h
  have hok := h.mpr (Or.inr rfl)
  revert hok
  decide

/-- C1, amended: for every store state, song id, user id and collaboration service,
`verifySongAccess(songId, userId)` completes without throwing if and only if either a
song is stored under `songId` and `userId` is its owner or `verifyCollaborator(songId,
userId)` succeeds, or the store rejects `songId` as a parameter (it holds U+0000) and
`verifyCollaborator(songId, userId)` succeeds; in every other case it throws. -/
theorem verifySongAccess_ok_iff {τ : Type} (db : Db) (collab : CollaborationService τ)
    (c : τ) (songId userId : String) :
    (verifySongAccess pgPool collab songId userId db c).1 = .ok () ↔
      (∃ row, db.song? songId = some row ∧
        (row.owner.val = userId ∨ (collab.verifyCollaborator songId userId c).1 = .ok ())) ∨
      (validText songId = false ∧ (collab.verifyCollaborator songId userId c).1 = .ok ()) := by
  unfold verifySongAccess
  rw [verifySongOwner_pg]
  by_cases hv : validText songId = true
  · cases h : db.song? songId with
    | none => simp [hv, Err.instanceofNotFoundError]
    | some row =>
      by_cases ho : row.owner.val = userId
      · simp [hv, ho]
      · rcases hc : collab.verifyCollaborator songId userId c with ⟨res, c1⟩
        cases res with
        | error e => simp [hv, ho, Err.instanceofNotFoundError, hc]
        | ok u => cases u; simp [hv, ho, Err.instanceofNotFoundError, hc]
  · have hnone : db.song? songId = none := by
      cases h : db.song? songId with
      | none => rfl
      | some row => exact absurd (validText_of_song? db songId row h) hv
    rcases hc : collab.verifyCollaborator songId userId c with ⟨res, c1⟩
    cases res with
    | error e => simp [hv, hnone, invalidByteSequence, Err.instanceofNotFoundError, hc]
    | ok u => cases u; simp [hv, hnone, invalidByteSequence, Err.instanceofNotFoundError, hc]

/-- C2, as stated, fails: the id that is U+0000 alone matches no row, the store rejects
the ownership query with its own error, the collaboration service is consulted, and with a
service that accepts the pair `verifySongAccess` completes instead of throwing
`NotFoundError`. -/
theorem verifySongAccess_rejected_id_completes :
    (∀ r ∈ emptyDb.songs, r.id.val ≠ nulString) ∧
      verifySongAccess pgPool acceptAll nulString "user-1" emptyDb () = (.ok (), emptyDb, ()) ∧
      (verifySongAccess pgPool acceptAll nulString "user-1" emptyDb ()).1 ≠
        .error (.NotFoundError "Catatan tidak ditemukan") := by
  decide

/-- C2, amended: when the store accepts the id as a parameter (it holds no U+0000) and no
row of `songs` has it, `verifySongAccess` throws the `NotFoundError` of the ownership
check for every collaboration service, whatever it would answer; the store and the state
of the collaboration service are left as they were, so the service was not consulted. -/
theorem verifySongAccess_missing_song {τ : Type} (db : Db) (collab : CollaborationService τ)
    (c : τ) (songId userId : String) (hvalid : validText songId = true)
    (h : ∀ r ∈ db.songs, r.id.val ≠ songId) :
    verifySongAccess pgPool collab songId userId db c =
        (.error (.NotFoundError "Catatan tidak ditemukan"), db, c) ∧
      (verifySongOwner pgPool songId userId db).1 =
        .error (.NotFoundError "Catatan tidak ditemukan") := by
  have hn := (song?_eq_none_iff db songId).mpr h
  unfold verifySongAccess
  rw [verifySongOwner_pg, hn]
  simp [hvalid, Err.instanceofNotFoundError]

/-- C2, amended, at a concrete input: `db1` holds no song `song-x`; the rejecting service
keeps its call count at 0. -/
theorem verifySongAccess_missing_song_witness :
    verifySongAccess pgPool rejectAll "song-x" "user-1" db1 0 =
        (.error (.NotFoundError "Catatan tidak ditemukan"), db1, 0) ∧
      (verifySongOwner pgPool "song-x" "user-1" db1).1 =
        .error (.NotFoundError "Catatan tidak ditemukan") :=
  verifySongAccess_missing_song db1 rejectAll 0 "song-x" "user-1" (by decide) (by decide)

/-- C3: for a stored song and a user who is not its owner, if `verifyCollaborator` throws
any error, `verifySongAccess` throws the `AuthorizationError` of the ownership check, the
very error `verifySongOwner` raised, and not the error of the collaboration service. -/
theorem verifySongAccess_collaborator_error {τ : Type} (db : Db)
    (collab : CollaborationService τ) (c : τ) (songId userId : String) (row : SongRow)
    (e : Err) (hrow : db.song? songId = some row) (howner : row.owner.val ≠ userId)
    (hthrow : (collab.verifyCollaborator songId userId c).1 = .error e) :
    (verifySongAccess pgPool collab songId userId db c).1 =
        .error (.AuthorizationError "Anda tidak berhak mengakses resource ini") ∧
      (verifySongAccess pgPool collab songId userId db c).1 =
        (verifySongOwner pgPool songId userId db).1 := by
  have hv := validText_of_song? db songId row hrow
  unfold verifySongAccess
  rw [verifySongOwner_pg, hrow]
  rcases hc : collab.verifyCollaborator songId userId c with ⟨res, c1⟩
  rw [hc] at hthrow
  simp only at hthrow
  subst hthrow
  simp [hv, howner, Err.instanceofNotFoundError, hc]

/-- C3 at a concrete input: `user-2` does not own `song-1`, and the collaboration lookup
fails with its own `NotFoundError`. -/
theorem verifySongAccess_collaborator_error_witness :
    (verifySongAccess pgPool collabNotFound "song-1" "user-2" db1 0).1 =
        .error (.AuthorizationError "Anda tidak berhak mengakses resource ini") ∧
      (verifySongAccess pgPool collabNotFound "song-1" "user-2" db1 0).1 =
        (verifySongOwner pgPool "song-1" "user-2" db1).1 :=
  verifySongAccess_collaborator_error db1 collabNotFound 0 "song-1" "user-2" song1
    (.NotFoundError "Kolaborasi tidak ditemukan") (by decide) (by decide) rfl

/-! ## Editing and deleting -/

theorem Text.ofStrings?_of_valid (ss : List String) (h : ss.all validText = true) :
    ∃ ts, Text.ofStrings? ss = some ts ∧ ts.map Subtype.val = ss := by
  cases hts : Text.ofStrings? ss with
  | none =>
    have := Text.ofStrings?_eq_none hts
    rw [h] at this
    exact absurd this (by decide)
  | some ts => exact ⟨ts, rfl, (Text.ofStrings?_eq_some hts).1⟩

theorem filter_eq_nil_of_none (songs : List SongRow) (P : SongRow → Prop) [DecidablePred P]
    (h : ∀ r ∈ songs, ¬ P r) : songs.filter (fun r => decide (P r)) = [] := by
  rw [List.filter_eq_nil_iff]
  intro r hr
  simpa using h r hr

theorem filter_not_eq_self (songs : List SongRow) (P : SongRow → Prop) [DecidablePred P]
    (h : ∀ r ∈ songs, ¬ P r) : songs.filter (fun r => decide (¬ P r)) = songs := by
  rw [List.filter_eq_self]
  intro r hr
  simpa using h r hr

theorem map_update_self (songs : List SongRow) (P : SongRow → Prop) [DecidablePred P]
    (f : SongRow → SongRow) (h : ∀ r ∈ songs, ¬ P r) :
    songs.map (fun r => if P r then f r else r) = songs := by
  induction songs with
  | nil => rfl
  | cons a l ih =>
    have ha : ¬ P a := h a (List.mem_cons_self a l)
    have hl : ∀ r ∈ l, ¬ P r := fun r hr => h r (List.mem_cons_of_mem a hr)
    simp [ha, ih hl]

/-- The `UPDATE` when the store accepts its parameters. -/
theorem pgQuery_updateSong_valid (db : Db) (title body : String) (tags : List String)
    (now : Timestamp) (id : String) (t b : Text) (ts : List Text) (i : Text)
    (ht : Text.ofString? title = some t) (hb : Text.ofString? body = some b)
    (hts : Text.ofStrings? tags = some ts) (hi : Text.ofString? id = some i) :
    pgQuery (.updateSong title body tags now id) db =
      (.ok ⟨(db.songs.filter (fun r => r.id = i)).map returningId⟩,
       { db with songs := db.songs.map (fun r =>
          if r.id = i then { r with title := t, body := b, tags := ts, updated_at := now }
          else r) }) := by
  simp [pgQuery, ht, hb, hts, hi]

/-- The `UPDATE` when the store rejects one of its parameters. -/
theorem pgQuery_updateSong_invalid (db : Db) (title body : String) (tags : List String)
    (now : Timestamp) (id : String)
    (h : (validText title && validText body && tags.all validText && validText id) = false) :
    pgQuery (.updateSong title body tags now id) db = (.error invalidByteSequence, db) := by
  cases ht : Text.ofString? title with
  | none => simp [pgQuery, ht]
  | some t =>
    cases hb : Text.ofString? body with
    | none => simp [pgQuery, ht, hb]
    | some b =>
      cases hts : Text.ofStrings? tags with
      | none => simp [pgQuery, ht, hb, hts]
      | some ts =>
        cases hi : Text.ofString? id with
        | none => simp [pgQuery, ht, hb, hts, hi]
        | some i =>
          have h1 := (Text.ofString?_eq_some ht).2
          have h2 := (Text.ofString?_eq_some hb).2
          have h3 := (Text.ofStrings?_eq_some hts).2
          have h4 := (Text.ofString?_eq_some hi).2
          rw [h1, h2, h3, h4] at h
          exact absurd h (by decide)

/-- C7, as stated, fails: the id that is U+0000 alone matches no row, the store rejects
the `UPDATE` and the `DELETE`, and its error surfaces instead of `NotFoundError`. -/
theorem edit_delete_rejected_id :
    (∀ r ∈ emptyDb.songs, r.id.val ≠ nulString) ∧
      editSongById pgPool 30 nulString "T" "B" ["c"] emptyDb =
        (.error invalidByteSequence, emptyDb) ∧
      deleteSongById pgPool nulString emptyDb = (.error invalidByteSequence, emptyDb) ∧
      invalidByteSequence ≠ .NotFoundError "Gagal memperbarui catatan. Id tidak ditemukan" ∧
      invalidByteSequence ≠ .NotFoundError "Catatan gagal dihapus. Id tidak ditemukan" := by
  decide

/-- C7, amended: when no row of `songs` has the id, `editSongById` and `deleteSongById`
never complete normally and leave the store (the `songs` table in particular) as it was;
each throws `NotFoundError` when the store accepts its parameters (no U+0000 in the id,
nor, for the edit, in the title, body and tags), and the error of the store otherwise. -/
theorem edit_delete_missing_song (db : Db) (now : Timestamp) (id title body : String)
    (tags : List String) (h : ∀ r ∈ db.songs, r.id.val ≠ id) :
    editSongById pgPool now id title body tags db =
        (.error
          (if (validText title && validText body && tags.all validText && validText id) = true
           then .NotFoundError "Gagal memperbarui catatan. Id tidak ditemukan"
           else invalidByteSequence), db) ∧
      deleteSongById pgPool id db =
        (.error
          (if validText id = true then .NotFoundError "Catatan gagal dihapus. Id tidak ditemukan"
           else invalidByteSequence), db) := by
  constructor
  · cases hall : (validText title && validText body && tags.all validText && validText id) with
    | false =>
      simp [editSongById, pgPool, pgQuery_updateSong_invalid db title body tags now id hall]
    | true =>
      simp only [Bool.and_eq_true] at hall
      obtain ⟨⟨⟨h1, h2⟩, h3⟩, h4⟩ := hall
      obtain ⟨ts, hts, _⟩ := Text.ofStrings?_of_valid tags h3
      have hno : ∀ r ∈ db.songs, ¬ (r.id = (⟨id, h4⟩ : Text)) := by
        intro r hr heq
        exact h r hr (congrArg Subtype.val heq)
      have hq := pgQuery_updateSong_valid db title body tags now id ⟨title, h1⟩ ⟨body, h2⟩ ts
        ⟨id, h4⟩ (Text.ofString?_of_valid _ h1) (Text.ofString?_of_valid _ h2) hts
        (Text.ofString?_of_valid _ h4)
      rw [filter_eq_nil_of_none db.songs _ hno, map_update_self db.songs _ _ hno] at hq
      simp [editSongById, pgPool, hq]
  · by_cases hv : validText id = true
    · have hno : ∀ r ∈ db.songs, ¬ (r.id.val = id) := h
      simp only [deleteSongById, pgPool, pgQuery, hv, if_true,
        filter_eq_nil_of_none db.songs _ hno]
      have hself := filter_not_eq_self db.songs _ hno
      simp only [ne_eq]
      rw [hself]
      simp
    · simp [deleteSongById, pgPool, pgQuery, hv]

/-- C7, amended, at a concrete input: `db1` holds no song `song-x`, and the store accepts
the parameters. -/
theorem edit_delete_missing_song_witness :
    editSongById pgPool 30 "song-x" "T" "B" ["c"] db1 =
        (.error (.NotFoundError "Gagal memperbarui catatan. Id tidak ditemukan"), db1) ∧
      deleteSongById pgPool "song-x" db1 =
        (.error (.NotFoundError "Catatan gagal dihapus. Id tidak ditemukan"), db1) :=
  edit_delete_missing_song db1 30 "song-x" "T" "B" ["c"] (by decide)

/-- C8: for an id that some row of `songs` has, and every patch, `editSongById` changes only
the title, body, tags and `updated_at` of the rows with that id: the other tables and the
number and order of the songs are kept, every row keeps its id, owner and `created_at`,
every row with another id is unchanged, and, the clock reading being no earlier than the
stored `updated_at`, no `updated_at` moves backwards. When the store accepts the patch (no
U+0000 in title, body or tags) the call completes and the rows with the id hold the patch
and the clock reading; when the store rejects it, its error surfaces and nothing changes. -/
theorem editSongById_frame (db : Db) (now : Timestamp) (id title body : String)
    (tags : List String) (hex : ∃ r ∈ db.songs, r.id.val = id)
    (hclock : ∀ r ∈ db.songs, r.id.val = id → r.updated_at ≤ now) :
    ∃ db1 : Db, editSongById pgPool now id title body tags db =
        (if (validText title && validText body && tags.all validText) = true then .ok ()
         else .error invalidByteSequence, db1) ∧
      db1.users = db.users ∧ db1.collaborations = db.collaborations ∧
      db1.songs.length = db.songs.length ∧
      ((validText title && validText body && tags.all validText) = false → db1 = db) ∧
      ∀ (i : Nat) (old : SongRow), db.songs[i]? = some old →
        ∃ new : SongRow, db1.songs[i]? = some new ∧
          new.id = old.id ∧ new.owner = old.owner ∧ new.created_at = old.created_at ∧
          old.updated_at ≤ new.updated_at ∧
          (old.id.val ≠ id → new = old) ∧
          (old.id.val = id →
            (validText title && validText body && tags.all validText) = true →
            new.title.val = title ∧ new.body.val = body ∧
              new.tags.map Subtype.val = tags ∧ new.updated_at = now) := by
  obtain ⟨r0, hr0, hid0⟩ := hex
  have h4 : validText id = true := by
    rw [← hid0]
    exact r0.id.property
  cases hall : (validText title && validText body && tags.all validText) with
  | false =>
    have hinv : (validText title && validText body && tags.all validText && validText id)
        = false := by
      rw [hall]
      rfl
    refine ⟨db, ?_, rfl, rfl, rfl, fun _ => rfl, ?_⟩
    · simp [editSongById, pgPool, pgQuery_updateSong_invalid db title body tags now id hinv]
    · intro i old hold
      exact ⟨old, hold, rfl, rfl, rfl, le_refl _, fun _ => rfl,
        fun _ hc => absurd hc (by decide)⟩
  | true =>
    simp only [Bool.and_eq_true] at hall
    obtain ⟨⟨h1, h2⟩, h3⟩ := hall
    obtain ⟨ts, hts, htsval⟩ := Text.ofStrings?_of_valid tags h3
    have hq := pgQuery_updateSong_valid db title body tags now id ⟨title, h1⟩ ⟨body, h2⟩ ts
      ⟨id, h4⟩ (Text.ofString?_of_valid _ h1) (Text.ofString?_of_valid _ h2) hts
      (Text.ofString?_of_valid _ h4)
    have hne : db.songs.filter (fun r => decide (r.id = (⟨id, h4⟩ : Text))) ≠ [] := by
      intro hnil
      rw [List.filter_eq_nil_iff] at hnil
      exact hnil r0 hr0 (by simpa using Subtype.ext hid0)
    refine ⟨{ db with songs := db.songs.map (fun r =>
        if r.id = (⟨id, h4⟩ : Text) then
          { r with title := ⟨title, h1⟩, body := ⟨body, h2⟩, tags := ts, updated_at := now }
        else r) }, ?_, rfl, rfl, by simp, fun hc => absurd hc (by decide), ?_⟩
    · simp [editSongById, pgPool, hq, hne]
    · intro i old hold
      have hmem : old ∈ db.songs := List.getElem?_mem hold
      by_cases hid : old.id.val = id
      · have hidt : old.id = (⟨id, h4⟩ : Text) := Subtype.ext hid
        refine ⟨⟨old.id, ⟨title, h1⟩, ⟨body, h2⟩, ts, old.created_at, now, old.owner⟩,
          by simp [List.getElem?_map, hold, hidt], rfl, rfl, rfl, hclock old hmem hid,
          fun h => absurd hid h, fun _ _ => ⟨rfl, rfl, htsval, rfl⟩⟩
      · have hidt : ¬ old.id = (⟨id, h4⟩ : Text) := fun heq => hid (congrArg Subtype.val heq)
        exact ⟨old, by simp [List.getElem?_map, hold, hidt], rfl, rfl, rfl, le_refl _,
          fun _ => rfl, fun h => absurd h hid⟩

/-- C8 at a concrete input: editing `song-1` of `db1` at instant 30. -/
theorem editSongById_frame_witness :
    ∃ db2 : Db, editSongById pgPool 30 "song-1" "T" "B" ["c"] db1 = (.ok (), db2) ∧
      db2.users = db1.users ∧ db2.collaborations = db1.collaborations ∧
      db2.songs.length = db1.songs.length ∧
      ∀ (i : Nat) (old : SongRow), db1.songs[i]? = some old →
        ∃ new : SongRow, db2.songs[i]? = some new ∧
          new.id = old.id ∧ new.owner = old.owner ∧ new.created_at = old.created_at ∧
          old.updated_at ≤ new.updated_at ∧
          (old.id.val ≠ "song-1" → new = old) ∧
          (old.id.val = "song-1" →
            new.title.val = "T" ∧ new.body.val = "B" ∧
              new.tags.map Subtype.val = ["c"] ∧ new.updated_at = 30) := by
  obtain ⟨db2, hres, hu, hc, hl, _, hrows⟩ :=
    editSongById_frame db1 30 "song-1" "T" "B" ["c"] ⟨song1, by decide, by decide⟩ (by decide)
  refine ⟨db2, hres, hu, hc, hl, ?_⟩
  intro i old hold
  obtain ⟨new, h1, h2, h3, h4, h5, h6, h7⟩ := hrows i old hold
  exact ⟨new, h1, h2, h3, h4, h5, h6, fun hid => h7 hid (by decide)⟩

/-! ## Reading songs back -/

theorem mapDBToModel_undefined : mapDBToModel = none := rfl

theorem arrayMap_mapDBToModel (rows : List JsObj) :
    arrayMap rows mapDBToModel = .error (.TypeError "undefined is not a function") := rfl

theorem songsLeftJoinUsers_mem (db : Db) (r : SongRow) (h : r ∈ db.songs) :
    ∃ o, (r, o) ∈ songsLeftJoinUsers db := by
  unfold songsLeftJoinUsers
  cases hu : db.users.filter (fun u => u.id = r.owner) with
  | nil =>
    refine ⟨r.toObj ++ [("username", JsVal.null)], ?_⟩
    rw [List.mem_flatten]
    exact ⟨[(r, r.toObj ++ [("username", JsVal.null)])],
      List.mem_map.mpr ⟨r, h, by simp [hu]⟩, List.mem_singleton.mpr rfl⟩
  | cons u us =>
    refine ⟨r.toObj ++ [("username", JsVal.str u.username.val)], ?_⟩
    rw [List.mem_flatten]
    exact ⟨(u :: us).map (fun u => (r, r.toObj ++ [("username", JsVal.str u.username.val)])),
      List.mem_map.mpr ⟨r, h, by simp [hu]⟩, by simp⟩

/-- For every id that a row of `songs` has, `getSongById` throws a `TypeError`. -/
theorem getSongById_stored_throws (db : Db) (id : String) (h : ∃ r ∈ db.songs, r.id.val = id) :
    getSongById pgPool id db = (.error (.TypeError "undefined is not a function"), db) := by
  obtain ⟨r, hr, hid⟩ := h
  have hv : validText id = true := by
    rw [← hid]
    exact r.id.property
  obtain ⟨o, ho⟩ := songsLeftJoinUsers_mem db r hr
  have hmem : (r, o) ∈ (songsLeftJoinUsers db).filter (fun su => decide (su.1.id.val = id)) := by
    rw [List.mem_filter]
    exact ⟨ho, by simpa using hid⟩
  have hlen : (((songsLeftJoinUsers db).filter
      (fun su => decide (su.1.id.val = id))).map Prod.snd).length ≠ 0 := by
    rw [List.length_map]
    exact Nat.ne_of_gt (List.length_pos_of_mem hmem)
  simp only [getSongById, pgPool, pgQuery, hv, if_true, arrayMap_mapDBToModel]
  rw [if_neg hlen]

/-- The `INSERT` when the store accepts its parameters and the id is not yet stored. -/
theorem pgQuery_insertSong_fresh (db : Db) (id title body : String) (tags : List String)
    (c u : Timestamp) (owner : String)
    (hvalid : (validText id && validText title && validText body && tags.all validText &&
      validText owner) = true)
    (hfresh : ∀ r ∈ db.songs, r.id.val ≠ id) :
    ∃ row : SongRow,
      pgQuery (.insertSong id title body tags c u owner) db =
        (.ok ⟨[[("id", .str id)]]⟩, { db with songs := db.songs ++ [row] }) ∧
      row.id.val = id ∧ row.title.val = title ∧ row.body.val = body ∧
      row.tags.map Subtype.val = tags ∧ row.owner.val = owner ∧
      row.created_at = c ∧ row.updated_at = u := by
  simp only [Bool.and_eq_true] at hvalid
  obtain ⟨⟨⟨⟨h1, h2⟩, h3⟩, h4⟩, h5⟩ := hvalid
  obtain ⟨ts, hts, htsval⟩ := Text.ofStrings?_of_valid tags h4
  have hnot : db.songs.any (fun r => decide (r.id = (⟨id, h1⟩ : Text))) = false := by
    rw [List.any_eq_false]
    intro r hr
    have := hfresh r hr
    simpa using fun heq : r.id = (⟨id, h1⟩ : Text) => this (congrArg Subtype.val heq)
  refine ⟨⟨⟨id, h1⟩, ⟨title, h2⟩, ⟨body, h3⟩, ts, c, u, ⟨owner, h5⟩⟩, ?_, rfl, rfl, rfl,
    htsval, rfl, rfl, rfl⟩
  simp [pgQuery, Text.ofString?_of_valid _ h1, Text.ofString?_of_valid _ h2,
    Text.ofString?_of_valid _ h3, Text.ofString?_of_valid _ h5, hts, hnot, returningId]

/-- C5, on the code: for parameters that the store accepts and an id not yet stored,
`addSong` stores the row and returns the generated identifier when it is not empty, and
the `getSongById` that follows with that identifier throws a `TypeError` instead of
returning the record, because `mapDBToModel` is not among the exports of `utils`. -/
theorem getSongById_after_addSong_throws (db : Db) (nanoid : String) (now : Timestamp)
    (title body : String) (tags : List String) (owner : String)
    (hvalid : (validText nanoid && validText title && validText body && tags.all validText &&
      validText owner) = true)
    (hfresh : ∀ r ∈ db.songs, r.id.val ≠ nanoid) :
    (addSong pgPool nanoid now title body tags owner db).1 =
        (if nanoid = "" then .error (.InvariantError "Catatan gagal ditambahkan")
         else .ok (.str nanoid)) ∧
      (∃ row : SongRow,
        (addSong pgPool nanoid now title body tags owner db).2.songs = db.songs ++ [row] ∧
        row.id.val = nanoid ∧ row.title.val = title ∧ row.body.val = body ∧
        row.tags.map Subtype.val = tags ∧ row.owner.val = owner ∧
        row.created_at = now ∧ row.updated_at = now) ∧
      (getSongById pgPool nanoid (addSong pgPool nanoid now title body tags owner db).2).1 =
        .error (.TypeError "undefined is not a function") := by
  obtain ⟨row, hq, hid, htitle, hbody, htags, howner, hc, hu⟩ :=
    pgQuery_insertSong_fresh db nanoid title body tags now now owner hvalid hfresh
  have hres : addSong pgPool nanoid now title body tags owner db =
      (if nanoid = "" then .error (.InvariantError "Catatan gagal ditambahkan")
       else .ok (.str nanoid), { db with songs := db.songs ++ [row] }) := by
    unfold addSong
    simp only [pgPool]
    rw [hq]
    by_cases hn : nanoid = ""
    · simp [JsObj.get, List.lookup, JsVal.truthy, hn]
    · simp [JsObj.get, List.lookup, JsVal.truthy, hn]
  rw [hres]
  refine ⟨rfl, ⟨row, rfl, hid, htitle, hbody, htags, howner, hc, hu⟩, ?_⟩
  rw [getSongById_stored_throws _ nanoid ⟨row, by simp, hid⟩]

/-- C5, on the code, at a concrete input: a fresh identifier on the empty store. -/
theorem getSongById_after_addSong_throws_witness :
    (addSong pgPool "abcdefghijklmnop" 5 "Title" "Body" ["a"] "user-1" emptyDb).1 =
        .ok (.str "abcdefghijklmnop") ∧
      (getSongById pgPool "abcdefghijklmnop"
        (addSong pgPool "abcdefghijklmnop" 5 "Title" "Body" ["a"] "user-1" emptyDb).2).1 =
        .error (.TypeError "undefined is not a function") :=
  ⟨(getSongById_after_addSong_throws emptyDb "abcdefghijklmnop" 5 "Title" "Body" ["a"]
      "user-1" (by decide) (by decide)).1,
   (getSongById_after_addSong_throws emptyDb "abcdefghijklmnop" 5 "Title" "Body" ["a"]
      "user-1" (by decide) (by decide)).2.2⟩

/-- C6, on the code: on every store state and for every user, `getSongs` never returns the
summaries: for a user id that the store accepts it throws a `TypeError`, because
`mapDBToModel` is not among the exports of `utils`, and for one that the store rejects
(it holds U+0000) the error of the store surfaces. -/
theorem getSongs_throws (db : Db) (owner : String) :
    getSongs pgPool owner db =
      (.error (if validText owner = true then .TypeError "undefined is not a function"
               else invalidByteSequence), db) := by
  by_cases hv : validText owner = true
  · simp [getSongs, pgPool, pgQuery, hv, arrayMap_mapDBToModel]
  · simp [getSongs, pgPool, pgQuery, hv]

/-- C10, on the code: when the `INSERT` resolves with no row, `addSong` throws a `TypeError`
from reading `id` of `undefined`, not the `InvariantError`. -/
theorem addSong_no_row_throws_TypeError :
    addSong noRowPool "abcdefghijklmnop" 5 "Title" "Body" ["a"] "user-1" () =
        (.error (.TypeError "Cannot read properties of undefined (reading id)"), ()) ∧
      (addSong noRowPool "abcdefghijklmnop" 5 "Title" "Body" ["a"] "user-1" ()).1 ≠
        .error (.InvariantError "Catatan gagal ditambahkan") := by
  decide

/-- The guard of `addSong` does its work when the first row is there: an `id` that is
missing, `null` or empty gives the `InvariantError`, and no identifier is returned. -/
theorem addSong_falsy_id {σ : Type} (pool : Pool σ) (nanoid : String) (now : Timestamp)
    (title body : String) (tags : List String) (owner : String) (s s1 : σ)
    (row : JsObj) (rest : List JsObj)
    (hq : pool.query (.insertSong nanoid title body tags now now owner) s =
      (.ok ⟨row :: rest⟩, s1))
    (hid : (row.get "id").truthy = false) :
    addSong pool nanoid now title body tags owner s =
      (.error (.InvariantError "Catatan gagal ditambahkan"), s1) := by
  simp [addSong, hq, hid]

/-! ## Searching users -/

theorem likePattern_plain_cons (c : Char) (p : List Char) (hc : plainChar c) :
    likePattern (c :: p) = (likePattern p).map (fun ts => .lit c :: ts) := by
  obtain ⟨h1, h2, h3⟩ := hc
  cases p with
  | nil => simp [likePattern, h1, h2, h3]
  | cons d q => simp [likePattern, h1, h2, h3]

theorem likePattern_plain_append (f : List Char) (hf : ∀ c ∈ f, plainChar c) :
    likePattern (f ++ [Char.ofNat 37]) = some (f.map .lit ++ [.anySeq]) := by
  induction f with
  | nil => simp [likePattern]
  | cons c f ih =>
    have hc : plainChar c := hf c (List.mem_cons_self c f)
    have hrest : ∀ d ∈ f, plainChar d := fun d hd => hf d (List.mem_cons_of_mem c hd)
    rw [List.cons_append, likePattern_plain_cons c _ hc, ih hrest]
    simp

theorem likePattern_fragment (f : List Char) (hf : ∀ c ∈ f, plainChar c) :
    likePattern (Char.ofNat 37 :: (f ++ [Char.ofNat 37])) =
      some (.anySeq :: (f.map .lit ++ [.anySeq])) := by
  have h := likePattern_plain_append f hf
  cases hp : f ++ [Char.ofNat 37] with
  | nil => simp at hp
  | cons d q =>
    rw [hp] at h
    simp [likePattern, h]

/-- A pattern that ends in `%` is well formed, whatever stands before the `%`: the escape
character cannot be the last one read. -/
theorem likePattern_isSome_append (p : List Char) :
    (likePattern (p ++ [Char.ofNat 37])).isSome = true ∧
      ∀ c, (likePattern (c :: (p ++ [Char.ofNat 37]))).isSome = true := by
  induction p with
  | nil =>
    refine ⟨by simp [likePattern], fun c => ?_⟩
    by_cases h1 : c = Char.ofNat 92
    · simp [likePattern, h1]
    · by_cases h2 : c = Char.ofNat 37
      · simp [likePattern, h2]
      · by_cases h3 : c = Char.ofNat 95
        · simp [likePattern, h3]
        · simp [likePattern, h1, h2, h3]
  | cons d q ih =>
    obtain ⟨ih1, ih2⟩ := ih
    refine ⟨ih2 d, fun c => ?_⟩
    have hd := ih2 d
    simp only [List.cons_append] at hd ⊢
    by_cases h1 : c = Char.ofNat 92
    · simp [likePattern, h1, ih1]
    · by_cases h2 : c = Char.ofNat 37
      · simp [likePattern, h2, hd]
      · by_cases h3 : c = Char.ofNat 95
        · simp [likePattern, h3, hd]
        · simp [likePattern, h1, h2, h3, hd]

theorem likeMatch_lits_anySeq (f t : List Char) :
    likeMatch (f.map .lit ++ [.anySeq]) t = true ↔ f <+: t := by
  induction f generalizing t with
  | nil =>
    simp only [List.map_nil, List.nil_append, likeMatch, List.any_eq_true, List.mem_tails,
      List.nil_prefix, iff_true]
    exact ⟨[], List.nil_suffix, rfl⟩
  | cons c f ih =>
    cases t with
    | nil => simp [likeMatch]
    | cons d t1 =>
      have ht := ih t1
      simp only [List.map_cons, List.cons_append, likeMatch, Bool.and_eq_true,
        decide_eq_true_eq, List.cons_prefix_cons]
      exact and_congr_right (fun _ => ht)

theorem likeMatch_fragment (f t : List Char) :
    likeMatch (.anySeq :: (f.map .lit ++ [.anySeq])) t = true ↔ f <:+: t := by
  simp only [likeMatch, List.any_eq_true, List.mem_tails, likeMatch_lits_anySeq]
  rw [List.infix_iff_prefix_suffix]
  constructor
  · rintro ⟨s, hs, hp⟩
    exact ⟨s, hp, hs⟩
  · rintro ⟨s, hp, hs⟩
    exact ⟨s, hs, hp⟩

/-- The parameter built from a fragment, as a list of characters. -/
theorem pattern_data (fragment : String) :
    ("%" ++ fragment ++ "%").data = Char.ofNat 37 :: (fragment.data ++ [Char.ofNat 37]) := by
  simp [String.data_append]

/-- The store accepts the parameter exactly when it accepts the fragment. -/
theorem validText_pattern (fragment : String) :
    validText ("%" ++ fragment ++ "%") = validText fragment := by
  unfold validText
  rw [pattern_data]
  simp only [List.all_cons, List.all_append, List.all_nil, Bool.and_true]
  have h37 : decide (Char.ofNat 37 ≠ Char.ofNat 0) = true := by decide
  rw [h37]
  simp

/-- C9, as stated, fails three times on the code: the search is case-sensitive, so the
fragment `ana` finds `banana_fan` and not `Anaïs`; the fragment is read as a `LIKE`
pattern, so `a_a` finds `banana_fan`, whose name does not contain the text `a_a`; and for
the fragment that is U+0000 alone, which holds no `LIKE` wildcard, the store rejects the
parameter and `getUsersByUsername` fails. -/
theorem getUsersByUsername_not_literal :
    (getUsersByUsername pgPool "ana" dbUsers).1 = .ok [userBanana.toObj] ∧
      (¬ ∃ rows, (getUsersByUsername pgPool "ana" dbUsers).1 = .ok rows ∧
        userAnais.toObj ∈ rows) ∧
      (getUsersByUsername pgPool "a_a" dbUsers).1 = .ok [userBanana.toObj] ∧
      ¬ ("a_a".data <:+: userBanana.username.val.data) ∧
      (∀ c ∈ nulString.data, plainChar c) ∧
      getUsersByUsername pgPool nulString dbUsers = (.error invalidByteSequence, dbUsers) := by
  refine ⟨by decide, ?_, by decide, by decide, by decide, by decide⟩
  rintro ⟨rows, hrows, hmem⟩
  have hval : (getUsersByUsername pgPool "ana" dbUsers).1 = .ok [userBanana.toObj] := by
    decide
  rw [hval] at hrows
  injection hrows with hrows
  subst hrows
  revert hmem
  decide

/-- C9, amended: for every users table and every fragment that the store accepts as a
parameter (it holds no U+0000), `getUsersByUsername(fragment)` does not fail, leaves the
store as it was and returns `id, username, fullname` records of users of the table; when
the fragment holds no backslash, `%` or `_` either, it returns exactly the records of the
users whose username contains the fragment as a literal, case-sensitive substring, in
table order (none when there is no such user). -/
theorem getUsersByUsername_valid (db : Db) (fragment : String)
    (hvalid : validText fragment = true) :
    (∃ rows, getUsersByUsername pgPool fragment db = (.ok rows, db) ∧
      ∀ o ∈ rows, ∃ u ∈ db.users, o = u.toObj) ∧
    ((∀ c ∈ fragment.data, plainChar c) →
      getUsersByUsername pgPool fragment db =
        (.ok ((db.users.filter
          (fun u => decide (fragment.data <:+: u.username.val.data))).map UserRow.toObj),
         db)) := by
  have hv : validText ("%" ++ fragment ++ "%") = true := by
    rw [validText_pattern, hvalid]
  constructor
  · have hsome := (likePattern_isSome_append fragment.data).2 (Char.ofNat 37)
    rw [← pattern_data] at hsome
    obtain ⟨toks, htoks⟩ := Option.isSome_iff_exists.mp hsome
    refine ⟨(db.users.filter (fun u => likeMatch toks u.username.val.data)).map UserRow.toObj,
      by simp only [getUsersByUsername, pgPool, pgQuery, hv, if_true, htoks], ?_⟩
    intro o ho
    obtain ⟨u, hu, rfl⟩ := List.mem_map.mp ho
    exact ⟨u, (List.mem_filter.mp hu).1, rfl⟩
  · intro hplain
    have hfilter : db.users.filter (fun u =>
          likeMatch (.anySeq :: (fragment.data.map .lit ++ [.anySeq])) u.username.val.data) =
        db.users.filter (fun u => decide (fragment.data <:+: u.username.val.data)) := by
      apply List.filter_congr
      intro u _
      rw [Bool.eq_iff_iff, decide_eq_true_eq]
      exact likeMatch_fragment _ _
    have hpat := likePattern_fragment _ hplain
    rw [← pattern_data] at hpat
    simp only [getUsersByUsername, pgPool, pgQuery, hv, if_true, hpat, hfilter]

/-- C9, amended, at a concrete input: the fragment `ana` on the three users of `dbUsers`. -/
theorem getUsersByUsername_valid_witness :
    (∃ rows, getUsersByUsername pgPool "ana" dbUsers = (.ok rows, dbUsers) ∧
      ∀ o ∈ rows, ∃ u ∈ dbUsers.users, o = u.toObj) ∧
    getUsersByUsername pgPool "ana" dbUsers =
      (.ok ((dbUsers.users.filter
        (fun u => decide ("ana".data <:+: u.username.val.data))).map UserRow.toObj),
       dbUsers) :=
  ⟨(getUsersByUsername_valid dbUsers "ana" (by decide)).1,
   (getUsersByUsername_valid dbUsers "ana" (by decide)).2 (by decide)⟩

end OpenMusic
